import Mathlib

/-!
Verification development for the IoT health-monitoring pipeline
(anomaly detection service, predictor service, weather task).

Part 1: JavaScript-style dynamic values over exact rationals, the fan-in
merge rule (`MergeAnomalyResults` and `ComputeFailurePrediction` both use
the same `reduce` with `||`), the failure-prediction computation, the
ETA / urgency selection, and the weather task with its fallback.

Part 2 (further below): the per-metric Z-score anomaly checks
(`CheckTemperatureAnomaly`, `CheckHumidityAnomaly`) over real numbers
extended with IEEE-style infinities and NaN, since the source divides by a
possibly-zero standard deviation.
-/

/-- Dynamic values occurring in task contexts. Numbers are modelled as
exact rationals. -/
inductive JVal where
  | vnull
  | vundefined
  | vbool (b : Bool)
  | vnum (q : ℚ)
  | vstr (s : String)
  | vobj (fields : List (String × JVal))

/-- JavaScript truthiness of a `JVal` (`null`/`undefined`/`false`/`0`/`""`
are falsy, every object is truthy). -/
def truthy : JVal → Bool
  | .vnull => false
  | .vundefined => false
  | .vbool b => b
  | .vnum q => decide (q ≠ 0)
  | .vstr s => decide (s ≠ "")
  | .vobj _ => true

/-- JavaScript `a || b`: the left operand if truthy, else the right. -/
def jsOr (a b : JVal) : JVal := if truthy a then a else b

/-- Property access `c.k` on a context modelled as an ordered key/value
list: the first binding of `k`, or `undefined` when absent. -/
def jsGet (c : List (String × JVal)) (k : String) : JVal :=
  match List.lookup k c with
  | some v => v
  | none => .vundefined

/-- The per-key content of the fan-in reduction used by both
`MergeAnomalyResults` and `ComputeFailurePrediction`:
`joinedContexts.reduce((acc, c) => acc.k || c.k, initial-empty-object)`. -/
def reduceKey (ctxs : List (List (String × JVal))) (k : String) : JVal :=
  List.foldl (fun acc c => jsOr acc (jsGet c k)) .vundefined ctxs

/-- The source expression `x?.score || 0` for a merged anomaly-result
value `x`, specialised to numeric scores: the `score` field of the object
when it is a number, `0` otherwise (`undefined || 0` is `0`, and a score
of `0` also yields `0`). -/
def scoreOf (v : JVal) : ℚ :=
  match v with
  | .vobj fields =>
    match List.lookup "score" fields with
    | some (.vnum q) => q
    | _ => 0
  | _ => 0

/-- The scoring part of the `MergeAnomalyResults` unique-task handler:
merge `temperatureAnomaly` / `humidityAnomaly` from the joined contexts,
average the two scores, and set the anomaly flag when the aggregate
strictly exceeds `0.7`. Returns `(anomalyScore, anomalyDetected)`. -/
def mergeAnomalyResults (ctxs : List (List (String × JVal))) : ℚ × Bool :=
  let temperatureAnomaly := reduceKey ctxs "temperatureAnomaly"
  let humidityAnomaly := reduceKey ctxs "humidityAnomaly"
  let overallScore := (scoreOf temperatureAnomaly + scoreOf humidityAnomaly) / 2
  (overallScore, decide (overallScore > 7/10))

/-- A context holding only a temperature anomaly result with score `q`,
as produced by the `CheckTemperatureAnomaly` branch. -/
def tempResultCtx (q : ℚ) : List (String × JVal) :=
  [("temperatureAnomaly", .vobj [("score", .vnum q)])]

/-- A context holding only a humidity anomaly result with score `q`,
as produced by the `CheckHumidityAnomaly` branch. -/
def humResultCtx (q : ℚ) : List (String × JVal) :=
  [("humidityAnomaly", .vobj [("score", .vnum q)])]

/-- `(trend === 'increasing') ? 1.2 : 1.0` from `ComputeFailurePrediction`. -/
def trendMultiplier (trend : String) : ℚ :=
  if trend = "increasing" then 12/10 else 1

/-- `(weatherData.condition === 'rain' || 'thunderstorm') ? 1.5 : 1.0`
from `ComputeFailurePrediction`, with the `||` modelled by `jsOr` exactly
as written in the source (the right operand is the string literal
`'thunderstorm'`). -/
def weatherMultiplier (condition : String) : ℚ :=
  if truthy (jsOr (.vbool (condition = "rain")) (.vstr "thunderstorm")) then 3/2 else 1

/-- `failureProbability` from `ComputeFailurePrediction`:
`baseRisk = anomalyHistory.length / 10` and
`min(baseRisk * weatherMultiplier * trendMultiplier, 1)`. -/
def failureProbability (anomalyCount : ℕ) (trend condition : String) : ℚ :=
  let baseRisk : ℚ := (anomalyCount : ℚ) / 10
  min (baseRisk * weatherMultiplier condition * trendMultiplier trend) 1

/-- `etaDays` from `ComputeFailurePrediction`: a draw from `[1, 4)` days
when the probability strictly exceeds `0.7`, else from `[7, 37)` days,
with `rand` the value of `Math.random()` (in `[0, 1)`). -/
def etaDays (fp rand : ℚ) : ℚ :=
  if fp > 7/10 then rand * 3 + 1 else rand * 30 + 7

/-- `predictedEta = new Date(Date.now() + etaDays * 24 * 60 * 60 * 1000)`,
as a millisecond timestamp relative to `now`. -/
def predictedEta (now fp rand : ℚ) : ℚ :=
  now + etaDays fp rand * (24 * 60 * 60 * 1000)

/-- A cross-service signal emission: name, carried urgency, and the
target services it is routed to. -/
structure EmittedSignal where
  signalName : String
  urgency : String
  targetServices : List String

/-- The signal emitted by `ComputeFailurePrediction`: urgency `high` to
`telemetry-collector` and `alert-service` when `failureProbability > 0.7`,
else urgency `low` to `alert-service` only. -/
def predictionSignal (fp : ℚ) : EmittedSignal :=
  if fp > 7/10 then
    EmittedSignal.mk "predictor.maintenance_needed" "high"
      ["telemetry-collector", "alert-service"]
  else
    EmittedSignal.mk "predictor.prediction_ready" "low" ["alert-service"]

/-- The weather reading produced by `CallWeatherApi`. -/
structure WeatherData where
  temperature : ℚ
  humidity : ℚ
  condition : String

/-- The fixed neutral fallback used by `CallWeatherApi` when the
credential is absent or the call fails. -/
def fallbackWeather : WeatherData := WeatherData.mk 20 50 "neutral"

/-- A `WeatherData` record as a context value. -/
def weatherVal (w : WeatherData) : JVal :=
  .vobj [("temperature", .vnum w.temperature), ("humidity", .vnum w.humidity),
    ("condition", .vstr w.condition)]

/-- JavaScript spread-update `{...ctx, k: v}` on an ordered key/value
context: the value of `k` is replaced in place when present, appended at
the end otherwise. -/
def setKey (ctx : List (String × JVal)) (k : String) (v : JVal) :
    List (String × JVal) :=
  if ctx.any (fun p => decide (p.1 = k)) then
    ctx.map (fun p => if p.1 = k then (k, v) else p)
  else
    ctx ++ [(k, v)]

/-- The `CallWeatherApi` task handler. The credential and the outcome of
the external fetch are passed as parameters; the handler itself never
propagates a fetch failure (the `catch` branch returns the fallback). -/
def callWeatherApi (ctx : List (String × JVal)) (apiKey : Option String)
    (fetchOutcome : Except String WeatherData) :
    Except String (List (String × JVal)) :=
  match apiKey with
  | none => Except.ok (setKey ctx "weatherData" (weatherVal fallbackWeather))
  | some _ =>
    match fetchOutcome with
    | Except.ok w => Except.ok (setKey ctx "weatherData" (weatherVal w))
    | Except.error _ =>
      Except.ok (setKey ctx "weatherData" (weatherVal fallbackWeather))

/-- Context in which falsy-value displacement at the fan-in merge is
observed: an earlier branch wrote the value `0` under key `k`. -/
def zeroCtx : List (String × JVal) := [("k", .vnum 0)]

/-- Context in which a later branch wrote the value `5` under key `k`. -/
def fiveCtx : List (String × JVal) := [("k", .vnum 5)]

/-- Concrete input context for the weather task. -/
def weatherCtx0 : List (String × JVal) := [("deviceId", .vstr "device-1")]

/-!
Part 2: the per-metric Z-score anomaly checks. The source computes
`zScore = Math.abs((reading - mean) / stdDev)` without guarding
`stdDev = 0`, so the number domain for that computation is the reals
extended with IEEE-style `Infinity`, `-Infinity` and `NaN`.
-/

/-- A JavaScript number: a (real-valued) finite number, an infinity, or
`NaN`. Arithmetic on finite values is modelled exactly. -/
inductive RNum where
  | num (x : ℝ)
  | inf
  | ninf
  | nan

/-- IEEE division as performed by `/` in the source: a nonzero finite
value divided by zero gives a signed infinity, `0 / 0` gives `NaN`, and
`NaN` contaminates. -/
noncomputable def RNum.div : RNum → RNum → RNum
  | .nan, _ => .nan
  | _, .nan => .nan
  | .num x, .num y =>
    if y = 0 then (if x = 0 then .nan else if 0 < x then .inf else .ninf)
    else .num (x / y)
  | .num _, .inf => .num 0
  | .num _, .ninf => .num 0
  | .inf, .num y => if y < 0 then .ninf else .inf
  | .ninf, .num y => if y < 0 then .inf else .ninf
  | .inf, .inf => .nan
  | .inf, .ninf => .nan
  | .ninf, .inf => .nan
  | .ninf, .ninf => .nan

/-- `Math.abs`. -/
noncomputable def RNum.abs : RNum → RNum
  | .num x => .num |x|
  | .inf => .inf
  | .ninf => .inf
  | .nan => .nan

/-- `Math.min`: `NaN` contaminates, otherwise the usual minimum. -/
noncomputable def RNum.minR : RNum → RNum → RNum
  | .nan, _ => .nan
  | _, .nan => .nan
  | .num x, .num y => .num (min x y)
  | .ninf, _ => .ninf
  | _, .ninf => .ninf
  | .inf, b => b
  | a, .inf => a

/-- The strict comparison `a > b` as a JavaScript boolean: any comparison
involving `NaN` is `false`. -/
noncomputable def RNum.gtBool : RNum → RNum → Bool
  | .nan, _ => false
  | _, .nan => false
  | .num x, .num y => decide (y < x)
  | .inf, .inf => false
  | .inf, _ => true
  | _, .inf => false
  | .ninf, _ => false
  | .num _, .ninf => true

/-- Values appearing in the result object of the anomaly-check handlers. -/
inductive SVal where
  | jnum (v : RNum)
  | jbool (b : Bool)
  | jstr (s : String)

/-- One historical telemetry record, as returned by the database query. -/
structure Telemetry where
  temperature : ℝ
  humidity : ℝ

/-- The current readings of the device under check. -/
structure Readings where
  temperature : ℝ
  humidity : ℝ

/-- The input context of the `CheckTemperatureAnomaly` and
`CheckHumidityAnomaly` handlers. -/
structure ScorerCtx where
  deviceId : String
  telemetrys : List Telemetry
  readings : Readings

/-- `ctx.telemetrys?.map((h) => h.temperature)`. -/
def tempsOf (ctx : ScorerCtx) : List ℝ :=
  ctx.telemetrys.map (fun h => h.temperature)

/-- `ctx.telemetrys.map((h) => h.humidity)`. -/
def humsOf (ctx : ScorerCtx) : List ℝ :=
  ctx.telemetrys.map (fun h => h.humidity)

/-- `l.reduce((a, b) => a + b, 0) / l.length`: the sample mean. -/
noncomputable def listMean (l : List ℝ) : ℝ :=
  List.foldl (fun a b => a + b) 0 l / l.length

/-- `l.reduce((a, b) => a + Math.pow(b - mean, 2), 0) / l.length`: the
population variance. -/
noncomputable def listVariance (l : List ℝ) : ℝ :=
  List.foldl (fun a b => a + (b - listMean l) ^ 2) 0 l / l.length

/-- `Math.sqrt(variance)`: the population standard deviation. -/
noncomputable def listStdDev (l : List ℝ) : ℝ :=
  Real.sqrt (listVariance l)

/-- The `CheckTemperatureAnomaly` handler. Fewer than 2 samples short-cut
to the insufficient-data result; otherwise the Z-score of the current
reading against the historical window is computed, with the division by
`stdDev` performed in IEEE arithmetic exactly as in the source. The
numeric interpolation `zScore.toFixed(2)` inside the anomalous-case
reason string is elided. -/
noncomputable def checkTemperatureAnomaly (ctx : ScorerCtx) :
    List (String × SVal) :=
  let temps := tempsOf ctx
  if temps.length < 2 then
    [("score", .jnum (.num 0)), ("anomalous", .jbool false),
      ("reason", .jstr "Insufficient data")]
  else
    let mean := listMean temps
    let stdDev := listStdDev temps
    let zScore := RNum.abs (RNum.div (.num (ctx.readings.temperature - mean)) (.num stdDev))
    let score := RNum.minR (RNum.div zScore (.num 3)) (.num 1)
    let anomalous := RNum.gtBool zScore (.num 2)
    [("score", .jnum score), ("anomalous", .jbool anomalous),
      ("reason", .jstr (if anomalous then "Z-score exceeds threshold" else "Normal")),
      ("metric", .jstr "temperature")]

/-- The `CheckHumidityAnomaly` handler; identical to the temperature
check but over the humidity samples and reading. -/
noncomputable def checkHumidityAnomaly (ctx : ScorerCtx) :
    List (String × SVal) :=
  let hums := humsOf ctx
  if hums.length < 2 then
    [("score", .jnum (.num 0)), ("anomalous", .jbool false),
      ("reason", .jstr "Insufficient data")]
  else
    let mean := listMean hums
    let stdDev := listStdDev hums
    let zScore := RNum.abs (RNum.div (.num (ctx.readings.humidity - mean)) (.num stdDev))
    let score := RNum.minR (RNum.div zScore (.num 3)) (.num 1)
    let anomalous := RNum.gtBool zScore (.num 2)
    [("score", .jnum score), ("anomalous", .jbool anomalous),
      ("reason", .jstr (if anomalous then "Z-score exceeds threshold" else "Normal")),
      ("metric", .jstr "humidity")]

/-- The window `[48, 50, 52, 49, 51]` with current reading `80` from the
spec's testable properties. -/
noncomputable def witnessCtx : ScorerCtx :=
  ScorerCtx.mk "device-1"
    [Telemetry.mk 48 48, Telemetry.mk 50 50, Telemetry.mk 52 52,
      Telemetry.mk 49 49, Telemetry.mk 51 51]
    (Readings.mk 80 80)

/-- A context with an empty historical window. -/
noncomputable def shortCtx : ScorerCtx :=
  ScorerCtx.mk "device-1" [] (Readings.mk 25 40)

/-- The constant window `[20, 20, 20, 20, 20]` with a differing current
reading `50`. -/
noncomputable def constCtx : ScorerCtx :=
  ScorerCtx.mk "device-1"
    [Telemetry.mk 20 20, Telemetry.mk 20 20, Telemetry.mk 20 20,
      Telemetry.mk 20 20, Telemetry.mk 20 20]
    (Readings.mk 50 50)

/-- The constant window `[20, 20, 20, 20, 20]` with the current reading
equal to the constant value. -/
noncomputable def constEqCtx : ScorerCtx :=
  ScorerCtx.mk "device-1"
    [Telemetry.mk 20 20, Telemetry.mk 20 20, Telemetry.mk 20 20,
      Telemetry.mk 20 20, Telemetry.mk 20 20]
    (Readings.mk 20 20)

/-- A two-sample context used to instantiate the frame property. -/
noncomputable def frameCtx : ScorerCtx :=
  ScorerCtx.mk "device-1" [Telemetry.mk 21 55, Telemetry.mk 22 54]
    (Readings.mk 23 53)

/-!
Helper lemmas.
-/

theorem RNum.div_num_num (x y : ℝ) (hy : y ≠ 0) :
    RNum.div (.num x) (.num y) = .num (x / y) := by
  simp [RNum.div, hy]

theorem RNum.div_zero_zero : RNum.div (.num 0) (.num 0) = .nan := by
  simp [RNum.div]

theorem RNum.div_num_zero_of_pos (x : ℝ) (hx : 0 < x) :
    RNum.div (.num x) (.num 0) = .inf := by
  simp [RNum.div, hx, hx.ne']

theorem RNum.div_num_zero_of_neg (x : ℝ) (hx : x < 0) :
    RNum.div (.num x) (.num 0) = .ninf := by
  simp [RNum.div, hx.ne, not_lt.mpr hx.le]

theorem RNum.div_nan_left (b : RNum) : RNum.div .nan b = .nan := by
  cases b <;> simp [RNum.div]

theorem RNum.div_inf_num (y : ℝ) (hy : ¬ y < 0) :
    RNum.div .inf (.num y) = .inf := by
  simp [RNum.div, hy]

theorem RNum.abs_num (x : ℝ) : RNum.abs (.num x) = .num |x| := rfl

theorem RNum.minR_num_num (x y : ℝ) :
    RNum.minR (.num x) (.num y) = .num (min x y) := rfl

theorem RNum.minR_nan_num (y : ℝ) : RNum.minR .nan (.num y) = .nan := rfl

theorem RNum.minR_inf_num (y : ℝ) : RNum.minR .inf (.num y) = .num y := rfl

theorem RNum.gtBool_num_num (x y : ℝ) :
    RNum.gtBool (.num x) (.num y) = true ↔ y < x := by
  simp [RNum.gtBool]

theorem RNum.gtBool_inf_num (y : ℝ) : RNum.gtBool .inf (.num y) = true := rfl

theorem RNum.gtBool_nan_num (y : ℝ) : RNum.gtBool .nan (.num y) = false := rfl

theorem truthy_jsOr_left (a b : JVal) (h : truthy a = true) : jsOr a b = a := by
  simp [jsOr, h]

theorem truthy_jsOr_right (a b : JVal) (h : truthy a = false) : jsOr a b = b := by
  simp [jsOr, h]

theorem foldl_jsOr_truthy (k : String) (l : List (List (String × JVal)))
    (a : JVal) (ha : truthy a = true) :
    List.foldl (fun acc c => jsOr acc (jsGet c k)) a l = a := by
  induction l with
  | nil => rfl
  | cons c l ih =>
    simp only [List.foldl_cons, truthy_jsOr_left _ _ ha, ih]

theorem foldl_jsOr_first_truthy (k : String) (c : List (String × JVal))
    (post : List (List (String × JVal))) (hc : truthy (jsGet c k) = true)
    (pre : List (List (String × JVal))) (a : JVal) (ha : truthy a = false)
    (hpre : ∀ c' ∈ pre, truthy (jsGet c' k) = false) :
    List.foldl (fun acc c => jsOr acc (jsGet c k)) a (pre ++ c :: post) =
      jsGet c k := by
  induction pre generalizing a with
  | nil =>
    simp only [List.nil_append, List.foldl_cons, truthy_jsOr_right _ _ ha]
    exact foldl_jsOr_truthy k post _ hc
  | cons p ps ih =>
    simp only [List.cons_append, List.foldl_cons, truthy_jsOr_right _ _ ha]
    exact ih _ (hpre p (List.mem_cons_self p ps)) fun c' h =>
      hpre c' (List.mem_cons_of_mem p h)

theorem lookup_append_single_self (ctx : List (String × JVal)) (k : String)
    (v : JVal) (h : ctx.any (fun p => decide (p.1 = k)) = false) :
    List.lookup k (ctx ++ [(k, v)]) = some v := by
  induction ctx with
  | nil => simp [List.lookup_cons]
  | cons p l ih =>
    obtain ⟨a, b⟩ := p
    simp only [List.any_cons, Bool.or_eq_false_iff, decide_eq_false_iff_not] at h
    have hka : (k == a) = false := beq_false_of_ne fun he => h.1 he.symm
    simp [List.lookup_cons, hka, ih h.2]

theorem lookup_append_single_ne (ctx : List (String × JVal)) (k : String)
    (v : JVal) (k' : String) (hne : k' ≠ k) :
    List.lookup k' (ctx ++ [(k, v)]) = List.lookup k' ctx := by
  induction ctx with
  | nil => simp [List.lookup_cons, beq_false_of_ne hne]
  | cons p l ih =>
    obtain ⟨a, b⟩ := p
    by_cases hk : k' = a
    · subst hk
      simp [List.lookup_cons]
    · simp [List.lookup_cons, beq_false_of_ne hk, ih]

theorem lookup_map_set_self (l : List (String × JVal)) (k : String) (v : JVal)
    (h : l.any (fun p => decide (p.1 = k)) = true) :
    List.lookup k (l.map (fun p => if p.1 = k then (k, v) else p)) = some v := by
  induction l with
  | nil => simp at h
  | cons p l ih =>
    obtain ⟨a, b⟩ := p
    by_cases hp : a = k
    · subst hp
      simp [List.lookup_cons]
    · have h' : (l.any fun p => decide (p.1 = k)) = true := by
        simp only [List.any_cons, Bool.or_eq_true, decide_eq_true_eq] at h
        exact h.resolve_left hp
      have hk : (k == a) = false := beq_false_of_ne (Ne.symm hp)
      simp [List.lookup_cons, if_neg hp, hk, ih h']

theorem lookup_map_set_ne (l : List (String × JVal)) (k : String) (v : JVal)
    (k' : String) (hne : k' ≠ k) :
    List.lookup k' (l.map (fun p => if p.1 = k then (k, v) else p)) =
      List.lookup k' l := by
  induction l with
  | nil => rfl
  | cons p l ih =>
    obtain ⟨a, b⟩ := p
    by_cases hp : a = k
    · subst hp
      simp [List.lookup_cons, beq_false_of_ne hne, ih]
    · by_cases hk : k' = a
      · subst hk
        simp [List.lookup_cons, if_neg hp]
      · simp [List.lookup_cons, if_neg hp, beq_false_of_ne hk, ih]

theorem lookup_setKey_self (ctx : List (String × JVal)) (k : String) (v : JVal) :
    List.lookup k (setKey ctx k v) = some v := by
  unfold setKey
  by_cases h : ctx.any (fun p => decide (p.1 = k)) = true
  · rw [if_pos h]
    exact lookup_map_set_self ctx k v h
  · rw [if_neg h]
    exact lookup_append_single_self ctx k v (Bool.eq_false_iff.mpr h)

theorem lookup_setKey_ne (ctx : List (String × JVal)) (k : String) (v : JVal)
    (k' : String) (hne : k' ≠ k) :
    List.lookup k' (setKey ctx k v) = List.lookup k' ctx := by
  unfold setKey
  by_cases h : ctx.any (fun p => decide (p.1 = k)) = true
  · rw [if_pos h]
    exact lookup_map_set_ne ctx k v k' hne
  · rw [if_neg h]
    exact lookup_append_single_ne ctx k v k' hne

theorem min_clamp (a k : ℚ) (ha : 0 ≤ a) (hk : 1 ≤ k) :
    min (a * k) 1 = min (min a 1 * k) 1 := by
  rcases le_total a 1 with h | h
  · rw [min_eq_left h]
  · rw [min_eq_right h, one_mul]
    have h1 : (1:ℚ) ≤ a * k := by nlinarith
    rw [min_eq_right h1, min_eq_right hk]

/-!
Claim theorems.
-/

/-- C1: for every pair of per-metric anomaly results received at the
`MergeAnomalyResults` fan-in (in either arrival order), the aggregate
overall score is the arithmetic mean of the two per-metric scores and the
overall anomaly flag is set if and only if that aggregate strictly
exceeds `0.7`; in particular scores `0.9` and `0.5` give aggregate `0.7`
and the flag is not set. -/
theorem merge_overall_score_mean :
    (∀ t h : ℚ,
      (mergeAnomalyResults [tempResultCtx t, humResultCtx h]).1 = (t + h) / 2 ∧
      ((mergeAnomalyResults [tempResultCtx t, humResultCtx h]).2 = true ↔
        (t + h) / 2 > 7/10) ∧
      (mergeAnomalyResults [humResultCtx h, tempResultCtx t]).1 = (t + h) / 2 ∧
      ((mergeAnomalyResults [humResultCtx h, tempResultCtx t]).2 = true ↔
        (t + h) / 2 > 7/10)) ∧
    mergeAnomalyResults [tempResultCtx (9/10), humResultCtx (5/10)] =
      (7/10, false) := by
  have e1 : ∀ t h : ℚ, mergeAnomalyResults [tempResultCtx t, humResultCtx h] =
      ((t + h) / 2, decide ((t + h) / 2 > 7/10)) := fun t h => rfl
  have e2 : ∀ t h : ℚ, mergeAnomalyResults [humResultCtx h, tempResultCtx t] =
      ((t + h) / 2, decide ((t + h) / 2 > 7/10)) := fun t h => rfl
  refine ⟨fun t h => ?_, ?_⟩
  · rw [e1, e2]
    exact ⟨rfl, decide_eq_true_iff, rfl, decide_eq_true_iff⟩
  · rw [e1]
    norm_num

/-- C2 counterexample: at the fan-in merge, the non-null value `0`
written by an earlier context for key `k` is displaced by the later
context's value `5`, so the merge does not assign the first non-null
value. -/
theorem merge_displaces_nonnull_falsy :
    reduceKey [zeroCtx, fiveCtx] "k" = JVal.vnum 5 ∧
    JVal.vnum 5 ≠ JVal.vnum 0 := by
  refine ⟨rfl, fun hcon => ?_⟩
  injection hcon with h
  exact absurd h (by norm_num)

/-- C2 (amended): the fan-in merge assigns to each key the first *truthy*
value encountered among the received contexts; a non-null but falsy value
(such as `0` or `false`) in an earlier context can be displaced. -/
theorem merge_first_truthy_wins (k : String) (pre : List (List (String × JVal)))
    (c : List (String × JVal)) (post : List (List (String × JVal)))
    (hpre : ∀ c' ∈ pre, truthy (jsGet c' k) = false)
    (hc : truthy (jsGet c k) = true) :
    reduceKey (pre ++ c :: post) k = jsGet c k :=
  foldl_jsOr_first_truthy k c post hc pre JVal.vundefined rfl hpre

/-- C2 witness: with an earlier context holding the falsy value `0` and a
later context holding the truthy value `5`, the merge yields the first
truthy value, `5`. -/
theorem merge_first_truthy_wins_witness :
    reduceKey [zeroCtx, fiveCtx] "k" = jsGet fiveCtx "k" ∧
    jsGet fiveCtx "k" = JVal.vnum 5 := by
  refine ⟨?_, rfl⟩
  exact merge_first_truthy_wins "k" [zeroCtx] fiveCtx []
    (fun c' hc' => by
      rw [List.mem_singleton] at hc'
      subst hc'
      rfl)
    rfl

/-- C6: the computed failure probability equals
`min(min(anomalyCount/10, 1) * weatherMultiplier * trendMultiplier, 1)`
for every anomaly count, trend and condition (the internal `baseRisk`
lacks the clamp, but since both multipliers are at least `1` the final
clamped product coincides); the trend multiplier is `1.2` exactly for
`"increasing"`; and `anomalyCount = 5`, trend `"increasing"`, condition
`"rain"` yield `0.9`. -/
theorem failure_probability_formula :
    (∀ (n : ℕ) (trend condition : String),
      failureProbability n trend condition =
        min (min ((n : ℚ) / 10) 1 * weatherMultiplier condition *
          trendMultiplier trend) 1) ∧
    (∀ trend, trendMultiplier trend =
      if trend = "increasing" then 12/10 else 1) ∧
    failureProbability 5 "increasing" "rain" = 9/10 := by
  have hw : ∀ condition, weatherMultiplier condition = 3/2 := by
    intro condition
    by_cases hb : condition = "rain" <;> simp [weatherMultiplier, jsOr, truthy, hb]
  have key : ∀ (n : ℕ) (m : ℚ), 1 ≤ m →
      min ((n : ℚ) / 10 * (3/2) * m) 1 = min (min ((n : ℚ) / 10) 1 * (3/2) * m) 1 := by
    intro n m hm
    have h1 := min_clamp ((n : ℚ) / 10) (3/2 * m) (by positivity) (by nlinarith)
    calc min ((n : ℚ) / 10 * (3/2) * m) 1
        = min ((n : ℚ) / 10 * (3/2 * m)) 1 := by rw [mul_assoc]
      _ = min (min ((n : ℚ) / 10) 1 * (3/2 * m)) 1 := h1
      _ = min (min ((n : ℚ) / 10) 1 * (3/2) * m) 1 := by rw [mul_assoc]
  refine ⟨?_, fun _ => rfl, ?_⟩
  · intro n trend condition
    have e : failureProbability n trend condition =
        min ((n : ℚ) / 10 * weatherMultiplier condition * trendMultiplier trend) 1 := rfl
    rw [e, hw]
    by_cases ht : trend = "increasing"
    · simp only [trendMultiplier, if_pos ht]
      exact key n (12/10) (by norm_num)
    · simp only [trendMultiplier, if_neg ht]
      exact key n 1 (by norm_num)
  · have e : failureProbability 5 "increasing" "rain" =
        min ((5 : ℚ) / 10 * weatherMultiplier "rain" * trendMultiplier "increasing") 1 := rfl
    rw [e, hw]
    norm_num [trendMultiplier]

/-- C7: evaluation of the weather-multiplier expression at the neutral
fallback condition. The source condition
`weatherData.condition === 'rain' || 'thunderstorm'` is always truthy
(the right operand is a non-empty string literal), so the multiplier is
`1.5` even for `"neutral"`, where the specified behaviour is `1.0`. -/
theorem weather_multiplier_neutral_bug :
    weatherMultiplier "neutral" = 3/2 ∧ ((3:ℚ)/2) ≠ 1 := by
  exact ⟨rfl, by norm_num⟩

/-- C8: with the random draw in `[0, 1)`, a failure probability strictly
above `0.7` gives an ETA in `[1, 4)` days from now and the high-urgency
signal to `telemetry-collector` and `alert-service`; otherwise the ETA is
in `[7, 37)` days and the low-urgency signal goes to `alert-service`
only. -/
theorem eta_and_urgency_threshold (fp rand now : ℚ) (h0 : 0 ≤ rand)
    (h1 : rand < 1) :
    (fp > 7/10 →
      1 ≤ etaDays fp rand ∧ etaDays fp rand < 4 ∧
      now + 1 * 86400000 ≤ predictedEta now fp rand ∧
      predictedEta now fp rand < now + 4 * 86400000 ∧
      predictionSignal fp = EmittedSignal.mk "predictor.maintenance_needed"
        "high" ["telemetry-collector", "alert-service"]) ∧
    (¬ fp > 7/10 →
      7 ≤ etaDays fp rand ∧ etaDays fp rand < 37 ∧
      now + 7 * 86400000 ≤ predictedEta now fp rand ∧
      predictedEta now fp rand < now + 37 * 86400000 ∧
      predictionSignal fp = EmittedSignal.mk "predictor.prediction_ready"
        "low" ["alert-service"]) := by
  constructor
  · intro hfp
    simp only [etaDays, predictedEta, predictionSignal, if_pos hfp]
    refine ⟨by linarith, by linarith, by nlinarith, by nlinarith, by trivial⟩
  · intro hfp
    simp only [etaDays, predictedEta, predictionSignal, if_neg hfp]
    refine ⟨by linarith, by linarith, by nlinarith, by nlinarith, by trivial⟩

/-- C8 witness: probability `0.9` with random draw `0.5` gives an ETA in
`[1, 4)` days and the high-urgency maintenance signal. -/
theorem eta_and_urgency_threshold_witness :
    1 ≤ etaDays (9/10) (1/2) ∧ etaDays (9/10) (1/2) < 4 ∧
    predictionSignal (9/10) = EmittedSignal.mk "predictor.maintenance_needed"
      "high" ["telemetry-collector", "alert-service"] := by
  obtain ⟨ha, hb, _, _, he⟩ :=
    (eta_and_urgency_threshold (9/10) (1/2) 0 (by norm_num) (by norm_num)).1
      (by norm_num)
  exact ⟨ha, hb, he⟩

/-- C9: whenever the weather credential is absent or the lookup fails,
`CallWeatherApi` returns the context extended with exactly the fallback
`temperature 20, humidity 50, condition "neutral"` under `weatherData`,
leaves every other key unchanged, and never surfaces an error (indeed it
returns `ok` on every input). -/
theorem weather_fallback_recovery (ctx : List (String × JVal))
    (apiKey : Option String) (fo : Except String WeatherData) :
    (∃ c', callWeatherApi ctx apiKey fo = Except.ok c') ∧
    ((apiKey = none ∨ ∃ e, fo = Except.error e) →
      ∃ c', callWeatherApi ctx apiKey fo = Except.ok c' ∧
        List.lookup "weatherData" c' = some (weatherVal fallbackWeather) ∧
        ∀ k, k ≠ "weatherData" → List.lookup k c' = List.lookup k ctx) := by
  cases apiKey with
  | none =>
    exact ⟨⟨_, rfl⟩, fun _ => ⟨_, rfl, lookup_setKey_self ctx _ _,
      fun k hk => lookup_setKey_ne ctx _ _ k hk⟩⟩
  | some key =>
    cases fo with
    | ok w =>
      refine ⟨⟨_, rfl⟩, ?_⟩
      rintro (h | ⟨e, h⟩) <;> simp at h
    | error e =>
      exact ⟨⟨_, rfl⟩, fun _ => ⟨_, rfl, lookup_setKey_self ctx _ _,
        fun k hk => lookup_setKey_ne ctx _ _ k hk⟩⟩

/-- C9 witness: with no credential configured, the weather task succeeds
on a concrete context, stores exactly the neutral fallback under
`weatherData`, and preserves the `deviceId` binding. -/
theorem weather_fallback_recovery_witness :
    ∃ c', callWeatherApi weatherCtx0 none
        (Except.ok (WeatherData.mk 25 60 "rain")) = Except.ok c' ∧
      List.lookup "weatherData" c' = some (weatherVal fallbackWeather) ∧
      List.lookup "deviceId" c' = some (JVal.vstr "device-1") := by
  obtain ⟨c', h1, h2, h3⟩ :=
    (weather_fallback_recovery weatherCtx0 none
      (Except.ok (WeatherData.mk 25 60 "rain"))).2 (Or.inl rfl)
  refine ⟨c', h1, h2, ?_⟩
  rw [h3 "deviceId" (by decide)]
  rfl

theorem foldl_add_replicate (c : ℝ) : ∀ (n : ℕ) (a : ℝ),
    List.foldl (fun a b => a + b) a (List.replicate n c) = a + n * c
  | 0, a => by simp
  | n + 1, a => by
    rw [List.replicate_succ, List.foldl_cons, foldl_add_replicate c n (a + c)]
    push_cast
    ring

theorem foldl_fix_replicate (f : ℝ → ℝ → ℝ) (c : ℝ) (hf : ∀ a, f a c = a) :
    ∀ (n : ℕ) (a : ℝ), List.foldl f a (List.replicate n c) = a
  | 0, _ => rfl
  | n + 1, a => by
    rw [List.replicate_succ, List.foldl_cons, hf, foldl_fix_replicate f c hf n a]

theorem listMean_replicate (n : ℕ) (c : ℝ) (hn : n ≠ 0) :
    listMean (List.replicate n c) = c := by
  have hn' : (n : ℝ) ≠ 0 := Nat.cast_ne_zero.mpr hn
  rw [listMean, foldl_add_replicate, List.length_replicate]
  field_simp

theorem listVariance_replicate (n : ℕ) (c : ℝ) (hn : n ≠ 0) :
    listVariance (List.replicate n c) = 0 := by
  rw [listVariance]
  simp only [listMean_replicate n c hn]
  rw [foldl_fix_replicate _ c (fun a => by ring) n 0, List.length_replicate,
    zero_div]

theorem listStdDev_replicate (n : ℕ) (c : ℝ) (hn : n ≠ 0) :
    listStdDev (List.replicate n c) = 0 := by
  rw [listStdDev, listVariance_replicate n c hn, Real.sqrt_zero]

theorem zscore_num_eval (r m s : ℝ) (hs : 0 < s) :
    RNum.minR (RNum.div (RNum.abs (RNum.div (.num (r - m)) (.num s)))
        (.num 3)) (.num 1) = .num (min (|r - m| / s / 3) 1) ∧
    (RNum.gtBool (RNum.abs (RNum.div (.num (r - m)) (.num s))) (.num 2) = true ↔
      |r - m| / s > 2) := by
  have habs : RNum.abs (RNum.div (.num (r - m)) (.num s)) = .num (|r - m| / s) := by
    rw [RNum.div_num_num _ _ hs.ne', RNum.abs_num, abs_div, abs_of_pos hs]
  constructor
  · rw [habs, RNum.div_num_num _ _ (by norm_num : (3:ℝ) ≠ 0), RNum.minR_num_num]
  · rw [habs, RNum.gtBool_num_num]

/-- C3: with at least 2 historical samples and a non-zero population
standard deviation `s`, each per-metric check returns
`score = min(|reading - mean| / s / 3, 1)` and sets `anomalous` exactly
when `|reading - mean| / s > 2`. -/
theorem anomaly_zscore_formula (ctx : ScorerCtx) :
    (2 ≤ (tempsOf ctx).length → listStdDev (tempsOf ctx) ≠ 0 →
      List.lookup "score" (checkTemperatureAnomaly ctx) =
        some (SVal.jnum (RNum.num (min (|ctx.readings.temperature -
          listMean (tempsOf ctx)| / listStdDev (tempsOf ctx) / 3) 1))) ∧
      ∃ b, List.lookup "anomalous" (checkTemperatureAnomaly ctx) =
          some (SVal.jbool b) ∧
        (b = true ↔ |ctx.readings.temperature - listMean (tempsOf ctx)| /
          listStdDev (tempsOf ctx) > 2)) ∧
    (2 ≤ (humsOf ctx).length → listStdDev (humsOf ctx) ≠ 0 →
      List.lookup "score" (checkHumidityAnomaly ctx) =
        some (SVal.jnum (RNum.num (min (|ctx.readings.humidity -
          listMean (humsOf ctx)| / listStdDev (humsOf ctx) / 3) 1))) ∧
      ∃ b, List.lookup "anomalous" (checkHumidityAnomaly ctx) =
          some (SVal.jbool b) ∧
        (b = true ↔ |ctx.readings.humidity - listMean (humsOf ctx)| /
          listStdDev (humsOf ctx) > 2)) := by
  constructor
  · intro h2 hs
    have hpos : 0 < listStdDev (tempsOf ctx) := by
      have h0 : 0 ≤ listStdDev (tempsOf ctx) := by
        rw [listStdDev]
        exact Real.sqrt_nonneg _
      exact h0.lt_of_ne (Ne.symm hs)
    have hne : ¬ (tempsOf ctx).length < 2 := by omega
    obtain ⟨e1, e2⟩ := zscore_num_eval ctx.readings.temperature
      (listMean (tempsOf ctx)) (listStdDev (tempsOf ctx)) hpos
    constructor
    · simp only [checkTemperatureAnomaly, if_neg hne, e1]
      simp [List.lookup_cons]
    · refine ⟨_, ?_, e2⟩
      simp only [checkTemperatureAnomaly, if_neg hne]
      simp [List.lookup_cons]
  · intro h2 hs
    have hpos : 0 < listStdDev (humsOf ctx) := by
      have h0 : 0 ≤ listStdDev (humsOf ctx) := by
        rw [listStdDev]
        exact Real.sqrt_nonneg _
      exact h0.lt_of_ne (Ne.symm hs)
    have hne : ¬ (humsOf ctx).length < 2 := by omega
    obtain ⟨e1, e2⟩ := zscore_num_eval ctx.readings.humidity
      (listMean (humsOf ctx)) (listStdDev (humsOf ctx)) hpos
    constructor
    · simp only [checkHumidityAnomaly, if_neg hne, e1]
      simp [List.lookup_cons]
    · refine ⟨_, ?_, e2⟩
      simp only [checkHumidityAnomaly, if_neg hne]
      simp [List.lookup_cons]

/-- C3 witness: for the window `[48, 50, 52, 49, 51]` and reading `80`
(mean `50`, population standard deviation `√2`), the temperature check
returns score `1` and `anomalous = true`. -/
theorem anomaly_zscore_formula_witness :
    List.lookup "score" (checkTemperatureAnomaly witnessCtx) =
      some (SVal.jnum (RNum.num 1)) ∧
    ∃ b, List.lookup "anomalous" (checkTemperatureAnomaly witnessCtx) =
      some (SVal.jbool b) ∧ b = true := by
  have htemps : tempsOf witnessCtx = [(48:ℝ), 50, 52, 49, 51] := rfl
  have hlen : 2 ≤ (tempsOf witnessCtx).length := by rw [htemps]; norm_num
  have hm0 : listMean [(48:ℝ), 50, 52, 49, 51] = 50 := by
    rw [listMean]
    norm_num [List.foldl_cons, List.foldl_nil]
  have hmean : listMean (tempsOf witnessCtx) = 50 := by rw [htemps, hm0]
  have hvar : listVariance (tempsOf witnessCtx) = 2 := by
    rw [htemps, listVariance]
    simp only [hm0]
    norm_num [List.foldl_cons, List.foldl_nil]
  have hstd : listStdDev (tempsOf witnessCtx) = Real.sqrt 2 := by
    rw [listStdDev, hvar]
  have hs2 : (0:ℝ) < Real.sqrt 2 := Real.sqrt_pos.mpr (by norm_num)
  have hsle : Real.sqrt 2 ≤ 2 := by
    nlinarith [Real.sq_sqrt (show (0:ℝ) ≤ 2 by norm_num), Real.sqrt_nonneg 2]
  have hns : listStdDev (tempsOf witnessCtx) ≠ 0 := by
    rw [hstd]
    exact hs2.ne'
  obtain ⟨hscore, b, hb, hbiff⟩ := (anomaly_zscore_formula witnessCtx).1 hlen hns
  have hr : witnessCtx.readings.temperature = 80 := rfl
  rw [hr, hmean, hstd] at hscore hbiff
  constructor
  · rw [hscore]
    have hval : min (|(80:ℝ) - 50| / Real.sqrt 2 / 3) 1 = 1 := by
      rw [show |(80:ℝ) - 50| = 30 by norm_num]
      apply min_eq_right
      rw [div_div, one_le_div (by positivity)]
      nlinarith
    rw [hval]
  · refine ⟨b, hb, hbiff.mpr ?_⟩
    rw [show |(80:ℝ) - 50| = 30 by norm_num, gt_iff_lt, lt_div_iff₀ hs2]
    nlinarith

/-- C4 counterexample: with an empty historical window the temperature
check's reason string is `"Insufficient data"` (capital `I`), not the
claimed `"insufficient data"`. -/
theorem insufficient_data_reason_case :
    List.lookup "reason" (checkTemperatureAnomaly shortCtx) =
      some (SVal.jstr "Insufficient data") ∧
    SVal.jstr "Insufficient data" ≠ SVal.jstr "insufficient data" := by
  refine ⟨rfl, fun hcon => ?_⟩
  injection hcon with h
  exact absurd h (by decide)

/-- C4 (amended): with fewer than 2 historical samples, both per-metric
checks return exactly `score 0`, `anomalous false` and reason
`"Insufficient data"`, without reaching the standard-deviation
computation. -/
theorem insufficient_data_result (ctx : ScorerCtx)
    (h : ctx.telemetrys.length < 2) :
    checkTemperatureAnomaly ctx =
      [("score", SVal.jnum (RNum.num 0)), ("anomalous", SVal.jbool false),
        ("reason", SVal.jstr "Insufficient data")] ∧
    checkHumidityAnomaly ctx =
      [("score", SVal.jnum (RNum.num 0)), ("anomalous", SVal.jbool false),
        ("reason", SVal.jstr "Insufficient data")] := by
  have ht : (tempsOf ctx).length < 2 := by
    rw [tempsOf, List.length_map]
    exact h
  have hh : (humsOf ctx).length < 2 := by
    rw [humsOf, List.length_map]
    exact h
  constructor
  · simp only [checkTemperatureAnomaly, if_pos ht]
  · simp only [checkHumidityAnomaly, if_pos hh]

/-- C4 witness: the empty window yields the insufficient-data result for
both metrics. -/
theorem insufficient_data_result_witness :
    checkTemperatureAnomaly shortCtx =
      [("score", SVal.jnum (RNum.num 0)), ("anomalous", SVal.jbool false),
        ("reason", SVal.jstr "Insufficient data")] ∧
    checkHumidityAnomaly shortCtx =
      [("score", SVal.jnum (RNum.num 0)), ("anomalous", SVal.jbool false),
        ("reason", SVal.jstr "Insufficient data")] :=
  insufficient_data_result shortCtx (by decide)

/-- C5 counterexample: on the constant window `[20, 20, 20, 20, 20]` with
reading equal to the constant, the division by the zero standard
deviation is performed and yields `0 / 0 = NaN`, so the returned score is
`NaN` — not a value in `[0, 1]` — and `anomalous` is `false`. -/
theorem const_window_score_nan :
    List.lookup "score" (checkTemperatureAnomaly constEqCtx) =
      some (SVal.jnum RNum.nan) ∧
    List.lookup "anomalous" (checkTemperatureAnomaly constEqCtx) =
      some (SVal.jbool false) := by
  have htemps : tempsOf constEqCtx = List.replicate 5 (20:ℝ) := rfl
  have hmean : listMean (tempsOf constEqCtx) = 20 := by
    rw [htemps]
    exact listMean_replicate 5 20 (by norm_num)
  have hstd : listStdDev (tempsOf constEqCtx) = 0 := by
    rw [htemps]
    exact listStdDev_replicate 5 20 (by norm_num)
  have hlen : ¬ (tempsOf constEqCtx).length < 2 := by
    rw [htemps, List.length_replicate]
    norm_num
  have hr : constEqCtx.readings.temperature = 20 := rfl
  have hz : RNum.abs (RNum.div
      (.num (constEqCtx.readings.temperature - listMean (tempsOf constEqCtx)))
      (.num (listStdDev (tempsOf constEqCtx)))) = RNum.nan := by
    rw [hmean, hstd, hr, sub_self, RNum.div_zero_zero]
    rfl
  constructor
  · simp only [checkTemperatureAnomaly, if_neg hlen, hz, RNum.div_nan_left,
      RNum.minR_nan_num]
    simp [List.lookup_cons]
  · simp only [checkTemperatureAnomaly, if_neg hlen, hz]
    simp [List.lookup_cons, RNum.gtBool]

/-- C5 (amended): on a constant historical window of at least 2 samples
the check performs the division by the zero standard deviation; under the
source's IEEE arithmetic the result is deterministic and non-crashing:
a differing reading yields score `1` (maximal) and `anomalous = true`,
while a reading equal to the constant yields score `NaN` (outside
`[0, 1]`) and `anomalous = false`. -/
theorem const_window_behavior (ctx : ScorerCtx) (n : ℕ) (c : ℝ) (h2 : 2 ≤ n)
    (hw : tempsOf ctx = List.replicate n c) :
    (ctx.readings.temperature ≠ c →
      List.lookup "score" (checkTemperatureAnomaly ctx) =
        some (SVal.jnum (RNum.num 1)) ∧
      List.lookup "anomalous" (checkTemperatureAnomaly ctx) =
        some (SVal.jbool true)) ∧
    (ctx.readings.temperature = c →
      List.lookup "score" (checkTemperatureAnomaly ctx) =
        some (SVal.jnum RNum.nan) ∧
      List.lookup "anomalous" (checkTemperatureAnomaly ctx) =
        some (SVal.jbool false)) := by
  have hn : n ≠ 0 := by omega
  have hlen : ¬ (tempsOf ctx).length < 2 := by
    rw [hw, List.length_replicate]
    omega
  have hmean : listMean (tempsOf ctx) = c := by
    rw [hw]
    exact listMean_replicate n c hn
  have hstd : listStdDev (tempsOf ctx) = 0 := by
    rw [hw]
    exact listStdDev_replicate n c hn
  constructor
  · intro hne
    have hz : RNum.abs (RNum.div
        (.num (ctx.readings.temperature - listMean (tempsOf ctx)))
        (.num (listStdDev (tempsOf ctx)))) = RNum.inf := by
      rw [hmean, hstd]
      rcases lt_or_gt_of_ne (sub_ne_zero.mpr hne) with hlt | hgt
      · rw [RNum.div_num_zero_of_neg _ hlt]
        rfl
      · rw [RNum.div_num_zero_of_pos _ hgt]
        rfl
    constructor
    · simp only [checkTemperatureAnomaly, if_neg hlen, hz,
        RNum.div_inf_num 3 (by norm_num), RNum.minR_inf_num]
      simp [List.lookup_cons]
    · simp only [checkTemperatureAnomaly, if_neg hlen, hz]
      simp [List.lookup_cons, RNum.gtBool]
  · intro heq
    have hz : RNum.abs (RNum.div
        (.num (ctx.readings.temperature - listMean (tempsOf ctx)))
        (.num (listStdDev (tempsOf ctx)))) = RNum.nan := by
      rw [hmean, hstd, heq, sub_self, RNum.div_zero_zero]
      rfl
    constructor
    · simp only [checkTemperatureAnomaly, if_neg hlen, hz, RNum.div_nan_left,
        RNum.minR_nan_num]
      simp [List.lookup_cons]
    · simp only [checkTemperatureAnomaly, if_neg hlen, hz]
      simp [List.lookup_cons, RNum.gtBool]

/-- C5 witness: the constant window `[20, 20, 20, 20, 20]` with the
differing reading `50` yields the maximal score `1` and
`anomalous = true`. -/
theorem const_window_behavior_witness :
    List.lookup "score" (checkTemperatureAnomaly constCtx) =
      some (SVal.jnum (RNum.num 1)) ∧
    List.lookup "anomalous" (checkTemperatureAnomaly constCtx) =
      some (SVal.jbool true) :=
  (const_window_behavior constCtx 5 20 (by norm_num) rfl).1
    (by norm_num [constCtx])

/-- C10: with at least 2 historical samples, each check handler returns a
fresh object whose keys are exactly `score`, `anomalous`, `reason`,
`metric`; no key of the input context (`deviceId`, `telemetrys`,
`readings`) survives, and neither handler sets the `temperatureAnomaly`
or `humidityAnomaly` keys read by the `MergeAnomalyResults` fan-in. -/
theorem handler_frame_keys (ctx : ScorerCtx) (h2 : 2 ≤ ctx.telemetrys.length) :
    (checkTemperatureAnomaly ctx).map Prod.fst =
      ["score", "anomalous", "reason", "metric"] ∧
    (checkHumidityAnomaly ctx).map Prod.fst =
      ["score", "anomalous", "reason", "metric"] ∧
    ∀ k ∈ (["deviceId", "telemetrys", "readings", "temperatureAnomaly",
        "humidityAnomaly"] : List String),
      ¬ k ∈ (checkTemperatureAnomaly ctx).map Prod.fst ∧
      ¬ k ∈ (checkHumidityAnomaly ctx).map Prod.fst := by
  have hT : ¬ (tempsOf ctx).length < 2 := by
    rw [tempsOf, List.length_map]
    omega
  have hH : ¬ (humsOf ctx).length < 2 := by
    rw [humsOf, List.length_map]
    omega
  have e1 : (checkTemperatureAnomaly ctx).map Prod.fst =
      ["score", "anomalous", "reason", "metric"] := by
    simp only [checkTemperatureAnomaly, if_neg hT]
    rfl
  have e2 : (checkHumidityAnomaly ctx).map Prod.fst =
      ["score", "anomalous", "reason", "metric"] := by
    simp only [checkHumidityAnomaly, if_neg hH]
    rfl
  refine ⟨e1, e2, ?_⟩
  intro k hk
  rw [e1, e2]
  fin_cases hk <;> exact ⟨by decide, by decide⟩

/-- C10 witness: on a concrete two-sample context the temperature check's
result object has exactly the four result keys, and neither check sets
the keys read by the fan-in. -/
theorem handler_frame_keys_witness :
    (checkTemperatureAnomaly frameCtx).map Prod.fst =
      ["score", "anomalous", "reason", "metric"] ∧
    ¬ "temperatureAnomaly" ∈ (checkTemperatureAnomaly frameCtx).map Prod.fst ∧
    ¬ "humidityAnomaly" ∈ (checkHumidityAnomaly frameCtx).map Prod.fst := by
  obtain ⟨h1, h2', h3⟩ := handler_frame_keys frameCtx (by norm_num [frameCtx])
  exact ⟨h1, (h3 "temperatureAnomaly" (by decide)).1,
    (h3 "humidityAnomaly" (by decide)).2⟩
